import Mathlib

/-!
Verification of the event-pipeline core of the inbox-to-social-thread bot
(`src/main.py`, class `GmailMonitor`).  Each Python function that a claim
refers to is shallowly embedded as an executable Lean definition; external
collaborators (mail API, language model, platform API, `json.loads`) appear
as explicit inputs or function parameters, so the embedded functions are the
pure control logic of the source.
-/

namespace Alma

/-! ## Character-list string utilities (models of the Python string ops used) -/

/-- Whitespace as stripped by Python `str.strip()` (ASCII subset). -/
def pyIsSpace (c : Char) : Bool :=
  c == ' ' || c == '\t' || c == '\n' || c == '\r' || c == Char.ofNat 11 || c == Char.ofNat 12

/-- Model of Python `str.strip()` on a character list. -/
def stripChars (s : List Char) : List Char :=
  ((s.dropWhile pyIsSpace).reverse.dropWhile pyIsSpace).reverse

/-- Model of Python `str.strip()`. -/
def pyStrip (s : String) : String :=
  String.mk (stripChars s.toList)

/-- Boolean prefix test on character lists. -/
def isPrefixOfChars : List Char → List Char → Bool
  | [], _ => true
  | _ :: _, [] => false
  | a :: as, b :: bs => a == b && isPrefixOfChars as bs

/-- Index of the first occurrence of `pat` in `s` (leftmost match), if any. -/
def firstOcc (pat : List Char) : List Char → Option Nat
  | [] => if isPrefixOfChars pat [] then some 0 else none
  | c :: cs =>
    if isPrefixOfChars pat (c :: cs) then some 0
    else (firstOcc pat cs).map (· + 1)

/-- Index of the last occurrence of `pat` in `s`, if any. -/
def lastOcc (pat : List Char) : List Char → Option Nat
  | [] => if isPrefixOfChars pat [] then some 0 else none
  | c :: cs =>
    match lastOcc pat cs with
    | some j => some (j + 1)
    | none => if isPrefixOfChars pat (c :: cs) then some 0 else none

/-- Model of Python `pat in s` (substring containment). -/
def containsSub (s pat : String) : Bool :=
  (firstOcc pat.toList s.toList).isSome

/-- Model of `re.sub(r"\*\*|\[|\]|\(\)|\{\}|#", "", t)`: scan left to right,
removing each leftmost match of one of the alternatives. -/
def cleanChars : List Char → List Char
  | [] => []
  | '*' :: '*' :: rest => cleanChars rest
  | '[' :: rest => cleanChars rest
  | ']' :: rest => cleanChars rest
  | '(' :: ')' :: rest => cleanChars rest
  | '{' :: '}' :: rest => cleanChars rest
  | '#' :: rest => cleanChars rest
  | c :: rest => c :: cleanChars rest

/-- String wrapper for `cleanChars` (the markdown-stripping `re.sub` of the source). -/
def clean (s : String) : String :=
  String.mk (cleanChars s.toList)

/-! ## Watermark filter (`is_new_email`, `src/main.py` lines 104-116)

`email.utils.parsedate_tz` either fails (`None`) or yields a date tuple whose
instant `email.utils.mktime_tz` computes as naive calendar seconds minus the
zone offset.  A parse result is therefore modelled as
`Option (Int × Int)` = optional (naive seconds, offset seconds); a date header
carrying no zone is modelled by the process-local offset value that
`mktime_tz` falls back to. -/

/-- Model of `email.utils.mktime_tz`: UTC epoch instant of a parsed tuple. -/
def mktime_tz (p : Int × Int) : Int :=
  p.1 - p.2

/-- The instant a timestamp string denotes, if it parses. -/
def parsedInstant (parsed : Option (Int × Int)) : Option Int :=
  parsed.map mktime_tz

/-- Embedding of `GmailMonitor.is_new_email`: `False` on parse failure,
otherwise strict comparison of the message instant with the process-start
watermark `start_time`. -/
def is_new_email (start_time : Int) (parsed : Option (Int × Int)) : Bool :=
  match parsed with
  | none => false
  | some p => decide (start_time < mktime_tz p)

/-! ## Body normalization (`_get_message_body`, `src/main.py` lines 170-181)

A Gmail payload part is a `mimeType`, an optional `body.data` (base64url
content; decoding is an external operation passed in as `decode`), and an
optional list of sub-parts (an absent `parts` key is modelled as the empty
list, which the source treats identically). -/

/-- A node of the nested message-part tree. -/
inductive Part where
  | mk (mimeType : String) (bodyData : Option String) (parts : List Part)

/-- Embedding of `GmailMonitor._get_message_body`: for each part in order,
a `text/plain` part contributes its decoded `body.data` (nothing when the
data field is absent, and its sub-parts are never visited); any other part
with sub-parts is recursed into; everything else contributes nothing. -/
def getBody (decode : String → String) : List Part → String
  | [] => ""
  | Part.mk mt bd sub :: rest =>
    (if mt = "text/plain" then (bd.map decode).getD "" else getBody decode sub)
    ++ getBody decode rest

/-- Modelled from the spec: "`body` is the concatenation, in provider-defined
traversal order, of all leaf text segments of a possibly-nested part
structure" — every leaf (childless part) of kind `text/plain` contributes its
decoded contents, non-text leaves are ignored, and every part with children
is recursed into. -/
def specLeafConcat (decode : String → String) : List Part → String
  | [] => ""
  | Part.mk mt bd sub :: rest =>
    (if sub.isEmpty then
       (if mt = "text/plain" then (bd.map decode).getD "" else "")
     else specLeafConcat decode sub)
    ++ specLeafConcat decode rest

/-- Well-formedness of a part tree: every `text/plain` part is a leaf
(this is how MIME messages are actually shaped). -/
def textLeafOk : List Part → Bool
  | [] => true
  | Part.mk mt _ sub :: rest =>
    (if mt = "text/plain" then sub.isEmpty else true) && textLeafOk sub && textLeafOk rest

/-- A tree containing a `text/plain` part that itself has sub-parts. -/
def oddTree : List Part :=
  [Part.mk "text/plain" none [Part.mk "text/plain" (some "A") []]]

/-- The spec's round-trip tree: text leaves `"A"`, `"B"` with non-text leaves
interspersed, one of them nested under a multipart container. -/
def abTree : List Part :=
  [Part.mk "text/plain" (some "A") [],
   Part.mk "image/png" (some "ZZZ") [],
   Part.mk "multipart/alternative" none
     [Part.mk "text/html" (some "<p>x</p>") [], Part.mk "text/plain" (some "B") []]]

/-! ## Topic content generator (`create_topic_thread`, `src/main.py` lines 260-306)

The external model call is represented by its response text; the embedded
function is the splitting, stripping and validation logic applied to it. -/

/-- Model of `response.text.split("[TWEET]")` (Python `str.split` with a
literal separator, scanning left to right). -/
def splitTweets : List Char → List (List Char)
  | '[' :: 'T' :: 'W' :: 'E' :: 'E' :: 'T' :: ']' :: rest => [] :: splitTweets rest
  | c :: rest =>
    match splitTweets rest with
    | piece :: pieces => (c :: piece) :: pieces
    | [] => [[c]]
  | [] => [[]]

/-- Embedding of the validation loop of `create_topic_thread` (lines 292-301):
each candidate tweet is cleaned of markdown characters, kept iff the cleaned
text has at most 280 characters, and dropped otherwise. -/
def validateTweets : List String → List String
  | [] => []
  | t :: ts =>
    if (clean t).length ≤ 280 then clean t :: validateTweets ts
    else validateTweets ts

/-- Embedding of `GmailMonitor.create_topic_thread` as a function of the
generation collaborator's response text: split on the `[TWEET]` sentinel,
strip each piece, drop empty pieces, then validate lengths. -/
def create_topic_thread (responseText : String) : List String :=
  validateTweets
    (((splitTweets responseText.toList).map (fun l => String.mk (stripChars l))).filter
      (fun t => t ≠ ""))

/-- A generated segment of 300 `a` characters (over the 280-character bound). -/
def longA : String :=
  String.mk (List.replicate 300 'a')

/-! ## Classifier adapter (`analyze_email_type`, lines 183-214, and the JSON
front-end of `create_newsletter_thread`, lines 308-327)

The model response is an `Option String` (`none` is the exception path of the
`try` block); `json.loads` plus the `analysis["type"]` / `analysis["topics"]`
field accesses are modelled by a parameter `jsonLoads` returning `none`
whenever Python would raise. -/

/-- Model of `re.search("‵‵‵json(.*)‵‵‵", text, re.DOTALL)` (with backtick
fences): the match starts at the first occurrence of the opening fence and the
greedy group extends to the last occurrence of a closing fence after it; if
either fence is missing there is no match. -/
def extractFenced (text : String) : Option String :=
  match firstOcc "```json".toList text.toList with
  | none => none
  | some i =>
    match lastOcc "```".toList (text.toList.drop (i + 7)) with
    | none => none
    | some j => some (String.mk ((text.toList.drop (i + 7)).take j))

/-- Embedding of `GmailMonitor.analyze_email_type` as a function of the model
response (`none` = the model call raised): the fenced group when present,
otherwise the literal error strings of the source. -/
def analyze_email_type (response : Option String) : String :=
  match response with
  | none => "ERROR: Could not analyze"
  | some text =>
    match extractFenced text with
    | some grp => grp
    | none => "ERROR: Could not parse JSON"

/-- Model of Python `str.split("‵‵‵json")` with a literal 7-character
backtick-fence separator. -/
def splitFenceJson : List Char → List (List Char)
  | '`' :: '`' :: '`' :: 'j' :: 's' :: 'o' :: 'n' :: rest => [] :: splitFenceJson rest
  | c :: rest =>
    match splitFenceJson rest with
    | piece :: pieces => (c :: piece) :: pieces
    | [] => [[c]]
  | [] => [[]]

/-- Model of Python `str.split("‵‵‵")` with a literal 3-backtick separator. -/
def splitFence : List Char → List (List Char)
  | '`' :: '`' :: '`' :: rest => [] :: splitFence rest
  | c :: rest =>
    match splitFence rest with
    | piece :: pieces => (c :: piece) :: pieces
    | [] => [[c]]
  | [] => [[]]

/-- Parsed shape of the classifier's JSON: the `type`, `reason` and `topics`
fields read by `create_newsletter_thread`. -/
structure Analysis where
  type : String
  reason : String
  topics : List String
deriving Repr, DecidableEq

/-- Embedding of the JSON string clean-up of `create_newsletter_thread`
(lines 315-317): strip, and when a `‵‵‵json` fence is present take the text
between the first opening fence and the next closing fence, stripped. -/
def extractJsonStr (analysis_json : String) : String :=
  let js := stripChars analysis_json.toList
  if (firstOcc "```json".toList js).isSome then
    String.mk (stripChars ((splitFence ((splitFenceJson js).getD 1 [])).headD []))
  else String.mk js

/-! ## Thread publisher (`post_thread`, `src/main.py` lines 364-420)

Platform calls are modelled by an oracle mapping the index of each
`create_tweet` call to its outcome.  The ghost `posted` log records, per
successful call, the text, the `reply_to` argument and the returned id. -/

/-- Outcome of one `create_tweet` call. -/
inductive TweetResult where
  | ok (id : Nat)
  | err (msg : String)
deriving Repr, DecidableEq

/-- Ghost record of one successfully created post. -/
structure Posted where
  text : String
  reply_to : Option Nat
  id : Nat
deriving Repr, DecidableEq

/-- Running state of a publish chain: the previous post id, the number of
`create_tweet` calls issued so far, and the log of created posts. -/
structure PostState where
  prev : Option Nat
  calls : Nat
  posted : List Posted
deriving Repr, DecidableEq

/-- Embedding of the per-segment loop of `GmailMonitor.post_thread`: a reply
attempt whose error mentions a deleted/invisible parent is retried as a new
top-level post; an error mentioning over-length is skipped; any other error
aborts with failure; otherwise the chain advances. -/
def post_thread_go (oracle : Nat → TweetResult) : List String → PostState → Bool × PostState
  | [], st => (true, st)
  | t :: ts, st =>
    match st.prev with
    | some p =>
      match oracle st.calls with
      | .ok id =>
        post_thread_go oracle ts ⟨some id, st.calls + 1, st.posted ++ [⟨t, some p, id⟩]⟩
      | .err m =>
        if containsSub m "deleted or not visible" then
          match oracle (st.calls + 1) with
          | .ok id =>
            post_thread_go oracle ts ⟨some id, st.calls + 2, st.posted ++ [⟨t, none, id⟩]⟩
          | .err m2 =>
            if containsSub m2 "Tweet needs to be shorter" then
              post_thread_go oracle ts ⟨st.prev, st.calls + 2, st.posted⟩
            else (false, ⟨st.prev, st.calls + 2, st.posted⟩)
        else
          if containsSub m "Tweet needs to be shorter" then
            post_thread_go oracle ts ⟨st.prev, st.calls + 1, st.posted⟩
          else (false, ⟨st.prev, st.calls + 1, st.posted⟩)
    | none =>
      match oracle st.calls with
      | .ok id =>
        post_thread_go oracle ts ⟨some id, st.calls + 1, st.posted ++ [⟨t, none, id⟩]⟩
      | .err m =>
        if containsSub m "Tweet needs to be shorter" then
          post_thread_go oracle ts ⟨none, st.calls + 1, st.posted⟩
        else (false, ⟨none, st.calls + 1, st.posted⟩)

/-- Embedding of `GmailMonitor.post_thread`: run the segment loop from the
empty chain; the boolean is the source's return value. -/
def post_thread (oracle : Nat → TweetResult) (tweets : List String) : Bool × PostState :=
  post_thread_go oracle tweets ⟨none, 0, []⟩

/-- Oracle for the chain-repair scenario: the first call succeeds, the second
(the reply) fails with a deleted-parent error, all later calls succeed. -/
def repairOracle : Nat → TweetResult
  | 0 => .ok 1
  | 1 => .err "Tweet deleted or not visible"
  | _ => .ok 2

/-- Oracle on which every call succeeds, with fresh ids `1, 2, …`. -/
def okOracle : Nat → TweetResult :=
  fun n => .ok (n + 1)

/-! ## Newsletter thread driver (`create_newsletter_thread`, lines 308-362)

The generation step per topic is a parameter `gen` (topic ↦ validated
segments, i.e. the result of `create_topic_thread`); the function's observable
effect is the list of (topic, segments) pairs actually handed to
`post_thread`, which the embedding returns. -/

/-- Embedding of `GmailMonitor.create_newsletter_thread`: parse the analysis
string; on parse failure or a non-newsletter type, publish nothing; otherwise
attempt each topic in order, handing its generated segments to the publisher
only when at least one segment survived validation. -/
def create_newsletter_thread (jsonLoads : String → Option Analysis)
    (gen : String → List String) (analysis_json : String) : List (String × List String) :=
  match jsonLoads (extractJsonStr analysis_json) with
  | none => []
  | some a =>
    if a.type = "NEWSLETTER" then
      (a.topics.map (fun t => (t, gen t))).filter (fun p => p.2 ≠ [])
    else []

/-! ## Session manager (`twitter_login`, `src/main.py` lines 216-258)

The three external outcomes — credentials all present, the login call
succeeding, the verification read succeeding — are boolean inputs. -/

/-- Result of one `twitter_login` call: the new `twitter_logged_in` state, the
returned boolean, and whether a credential exchange (the `client.login` call)
was attempted. -/
structure LoginResult where
  logged_in : Bool
  returned : Bool
  attempted_login : Bool
deriving Repr, DecidableEq

/-- Embedding of `GmailMonitor.twitter_login`: an already-authenticated call
returns success untouched; otherwise missing credentials or a failed login or
a failed verification read leave the state unauthenticated and report failure,
and only the full success path sets `twitter_logged_in`. -/
def twitter_login (logged_in creds_ok login_ok verify_ok : Bool) : LoginResult :=
  if logged_in then ⟨true, true, false⟩
  else if !creds_ok then ⟨false, false, false⟩
  else if !login_ok then ⟨false, false, true⟩
  else if verify_ok then ⟨true, true, true⟩
  else ⟨false, false, true⟩

/-! ## Inbox monitor loop (`monitor_inbox`, `src/main.py` lines 422-523)

One iteration over one listed message is embedded as a step function from the
`processed_messages` ledger and the message's data to the new ledger and the
step's observable effects.  The date header is an
`Option (Option (Int × Int))`: the outer option is the presence of the header,
the inner one the parse result (the `is_new_email` model).  `fetchOk` is
whether `process_message` returned a non-empty record. -/

/-- Observable effects of handling one listed message: whether the dedup check
answered "unseen", whether the mark-as-read mutation was issued, and whether
the side-effecting processing (classify, generate, publish) ran. -/
structure StepEffects where
  dedupUnseen : Bool
  markedRead : Bool
  classified : Bool
deriving Repr, DecidableEq

/-- One listed message as the loop sees it. -/
structure MsgEvent where
  id : String
  dateHeader : Option (Option (Int × Int))
  fetchOk : Bool
deriving Repr, DecidableEq

/-- Embedding of the per-message body of `monitor_inbox` (lines 448-510): skip
ids already in the ledger; for a present, new date run the processing pipeline
and append the id on success; otherwise mark the message read. -/
def monitorStep (wm : Int) (ledger : List String) (ev : MsgEvent) :
    List String × StepEffects :=
  if ev.id ∈ ledger then (ledger, ⟨false, false, false⟩)
  else
    match ev.dateHeader with
    | some d =>
      if is_new_email wm d then
        if ev.fetchOk then (ledger ++ [ev.id], ⟨true, false, true⟩)
        else (ledger, ⟨true, false, false⟩)
      else (ledger, ⟨true, true, false⟩)
    | none => (ledger, ⟨true, true, false⟩)

/-- Run of the monitor loop body over a sequence of listed messages, returning
the final ledger and the per-message effect trace. -/
def runMonitor (wm : Int) (ledger : List String) : List MsgEvent → List String × List (String × StepEffects)
  | [] => (ledger, [])
  | ev :: evs =>
    ((runMonitor wm (monitorStep wm ledger ev).1 evs).1,
     (ev.id, (monitorStep wm ledger ev).2) :: (runMonitor wm (monitorStep wm ledger ev).1 evs).2)

/-- A listed message whose date header is present but unparseable (so it is
never recorded in the ledger). -/
def eventX : MsgEvent :=
  ⟨"X", some none, false⟩

/-! ## Mention reply generator (`analyze_and_respond_to_tweet`, lines 525-556) -/

/-- Embedding of `GmailMonitor.analyze_and_respond_to_tweet` as a function of
the model response (`none` = the model call raised): strip, clean, and
truncate a cleaned reply longer than 240 characters to its first 237
characters plus `"..."`; the exception path returns the empty string. -/
def analyze_and_respond_to_tweet (response : Option String) : String :=
  match response with
  | none => ""
  | some t =>
    if 240 < (clean (pyStrip t)).length then
      String.mk ((clean (pyStrip t)).toList.take 237 ++ "...".toList)
    else clean (pyStrip t)

/-- A 300-character model reply used to exercise the truncation branch. -/
def longB : String :=
  String.mk (List.replicate 300 'b')

/-! ## Claim C1 — watermark filter -/

/-- C1: the watermark filter returns true iff the timestamp parses and its
instant is strictly later than the watermark; equivalent instants in different
zone representations agree; instants at or before the watermark, and
unparseable timestamps, yield false. -/
theorem c1_watermark_filter (wm : Int) (p : Option (Int × Int)) :
    (is_new_email wm p = true ↔ ∃ t : Int, parsedInstant p = some t ∧ wm < t)
    ∧ (∀ a b : Int × Int, mktime_tz a = mktime_tz b →
        is_new_email wm (some a) = is_new_email wm (some b))
    ∧ (∀ a : Int × Int, mktime_tz a ≤ wm → is_new_email wm (some a) = false)
    ∧ is_new_email wm none = false := by
  refine ⟨?_, ?_, ?_, rfl⟩
  · cases p with
    | none => simp [is_new_email, parsedInstant]
    | some a => simp [is_new_email, parsedInstant]
  · intro a b h
    simp [is_new_email, h]
  · intro a h
    simp [is_new_email]
    omega

/-- Witness for C1 at concrete inputs: the two representations `(5, 2)` and
`(3, 0)` of instant `3` agree, and an instant equal to the watermark is not
new. -/
theorem c1_watermark_filter_witness :
    is_new_email 0 (some (5, 2)) = is_new_email 0 (some (3, 0))
    ∧ is_new_email 0 (some (3, 3)) = false := by
  exact ⟨(c1_watermark_filter 0 (some (5, 2))).2.1 (5, 2) (3, 0) (by decide),
         (c1_watermark_filter 0 (some (3, 3))).2.2.1 (3, 3) (by decide)⟩

/-! ## Claim C3 — body normalization -/

/-- C3 counterexample: on a tree whose `text/plain` root carries a nested
text leaf `"A"`, `_get_message_body` returns `""` while the concatenation of
the decoded contents of every plain-text leaf is `"A"`, so the function does
not always return that concatenation. -/
theorem c3_normalization_counterexample :
    getBody (fun s => s) oddTree = ""
    ∧ specLeafConcat (fun s => s) oddTree = "A"
    ∧ getBody (fun s => s) oddTree ≠ specLeafConcat (fun s => s) oddTree := by
  refine ⟨by simp [getBody, oddTree], by simp [specLeafConcat, oddTree], ?_⟩
  simp [getBody, specLeafConcat, oddTree]

/-- C3 amended: on every part tree in which each `text/plain` part is a leaf,
`_get_message_body` returns exactly the concatenation, in traversal order, of
the decoded contents of every plain-text leaf, non-text leaves ignored. -/
theorem c3_normalization_amended (decode : String → String) (ps : List Part)
    (h : textLeafOk ps = true) :
    getBody decode ps = specLeafConcat decode ps := by
  induction ps using getBody.induct decode with
  | case1 => simp [getBody, specLeafConcat]
  | case2 mt bd sub rest ih1 ih2 =>
    simp only [textLeafOk, Bool.and_eq_true] at h
    obtain ⟨⟨h1, h2⟩, h3⟩ := h
    simp only [getBody, specLeafConcat]
    by_cases hmt : mt = "text/plain"
    · have hsub : sub.isEmpty = true := by simpa [hmt] using h1
      simp [hmt, hsub, ih2 h3]
    · by_cases hs : sub.isEmpty
      · have hnil : sub = [] := by simpa [List.isEmpty_iff] using hs
        simp [hmt, hs, hnil, ih2 h3, getBody]
      · simp [hmt, hs, ih1 h2, ih2 h3]

/-- Witness for the amended C3 on the spec's `["A","B"]` round-trip tree:
normalization agrees with the leaf concatenation and yields `"AB"`. -/
theorem c3_normalization_amended_witness :
    getBody (fun s => s) abTree = specLeafConcat (fun s => s) abTree
    ∧ getBody (fun s => s) abTree = "AB" := by
  refine ⟨c3_normalization_amended (fun s => s) abTree (by simp [textLeafOk, abTree]), ?_⟩
  simp [getBody, abTree]

/-! ## Claim C5 — over-length segments dropped, survivors published in order -/

set_option maxRecDepth 4000 in
/-- C5: generation-time validation keeps, in order, exactly the cleaned
segments of at most 280 characters and drops every longer one; on the spec's
`["a"*300, "ok", "ok2"]` example the first segment is dropped and the
published chain is exactly `"ok"` then `"ok2"` replying to it. -/
theorem c5_overlength_dropped (ts : List String) :
    validateTweets ts = (ts.map clean).filter (fun c => c.length ≤ 280)
    ∧ validateTweets [longA, "ok", "ok2"] = ["ok", "ok2"]
    ∧ post_thread okOracle ["ok", "ok2"] =
        (true, ⟨some 2, 2, [⟨"ok", none, 1⟩, ⟨"ok2", some 1, 2⟩]⟩) := by
  refine ⟨?_, by decide, by decide⟩
  induction ts with
  | nil => rfl
  | cons t ts ih =>
    by_cases h : (clean t).length ≤ 280 <;>
      simp [validateTweets, h, ih, List.filter_cons]

/-! ## Claim C6 — unparseable classification surfaced, no thread created -/

/-- C6: a classifier response with no fenced JSON block yields the literal
error result, a raised model call yields the other error result, and any
analysis string whose extracted contents fail schema parsing produces no
thread at all. -/
theorem c6_unparseable_no_thread :
    (∀ text : String, extractFenced text = none →
        analyze_email_type (some text) = "ERROR: Could not parse JSON")
    ∧ analyze_email_type none = "ERROR: Could not analyze"
    ∧ (∀ (jsonLoads : String → Option Analysis) (gen : String → List String) (aj : String),
        jsonLoads (extractJsonStr aj) = none →
        create_newsletter_thread jsonLoads gen aj = []) := by
  refine ⟨?_, rfl, ?_⟩
  · intro text h
    simp [analyze_email_type, h]
  · intro jl gen aj h
    simp [create_newsletter_thread, h]

/-- Witness for C6: a fence-less response maps to the parse-error string, and
an analysis string rejected by the JSON parser creates no thread. -/
theorem c6_unparseable_no_thread_witness :
    analyze_email_type (some "plain prose, no fence") = "ERROR: Could not parse JSON"
    ∧ create_newsletter_thread (fun _ => none) (fun _ => ["x"]) "ERROR: Could not parse JSON" = [] :=
  ⟨c6_unparseable_no_thread.1 "plain prose, no fence" (by decide),
   c6_unparseable_no_thread.2.2 (fun _ => none) (fun _ => ["x"]) "ERROR: Could not parse JSON" rfl⟩

/-! ## Claim C7 — segment-sequence length invariant -/

set_option maxRecDepth 4000 in
/-- C7 counterexample: when every generated segment is over-length the
sequence returned by `create_topic_thread` is empty, so its length is not at
least 1. -/
theorem c7_invariant_counterexample :
    create_topic_thread longA = [] ∧ ¬ 1 ≤ (create_topic_thread longA).length := by
  refine ⟨by decide, ?_⟩
  intro h
  rw [show create_topic_thread longA = [] from by decide] at h
  simp at h

/-- C7 amended: `create_topic_thread` may return zero segments, and the
caller abandons such topics, so every segment sequence actually handed to the
publisher by `create_newsletter_thread` has length at least 1. -/
theorem c7_invariant_amended (jsonLoads : String → Option Analysis)
    (gen : String → List String) (aj : String) (p : String × List String)
    (hp : p ∈ create_newsletter_thread jsonLoads gen aj) :
    1 ≤ p.2.length := by
  cases hj : jsonLoads (extractJsonStr aj) with
  | none => simp [create_newsletter_thread, hj] at hp
  | some a =>
    by_cases ht : a.type = "NEWSLETTER"
    · simp only [create_newsletter_thread, hj, if_pos ht] at hp
      have h2 := (List.mem_filter.mp hp).2
      have : p.2 ≠ [] := by simpa using h2
      have := List.length_pos.mpr this
      omega
    · simp [create_newsletter_thread, hj, ht] at hp

/-- Witness for the amended C7: a one-topic newsletter whose generator
produced one valid segment hands a length-1 sequence to the publisher. -/
theorem c7_invariant_amended_witness :
    1 ≤ (("T1", ["ok"]) : String × List String).2.length :=
  c7_invariant_amended (fun _ => some ⟨"NEWSLETTER", "r", ["T1"]⟩) (fun _ => ["ok"])
    "whatever" ("T1", ["ok"]) (by decide)

/-! ## Claim C4 — chain repair on deleted parent -/

/-- C4: when a reply attempt fails with a deleted/not-visible parent error and
the immediate retry succeeds, the same segment is published as a new top-level
post (no reply link), previously published segments stay intact, and on the
spec's two-segment scenario the overall chain result still reports success. -/
theorem c4_chain_repair :
    (∀ (oracle : Nat → TweetResult) (p cs : Nat) (posted : List Posted)
        (t : String) (ts : List String) (m : String) (id : Nat),
        oracle cs = .err m → containsSub m "deleted or not visible" = true →
        oracle (cs + 1) = .ok id →
        post_thread_go oracle (t :: ts) ⟨some p, cs, posted⟩ =
          post_thread_go oracle ts ⟨some id, cs + 2, posted ++ [⟨t, none, id⟩]⟩)
    ∧ post_thread repairOracle ["s1", "s2"] =
        (true, ⟨some 2, 3, [⟨"s1", none, 1⟩, ⟨"s2", none, 2⟩]⟩) := by
  refine ⟨?_, by decide⟩
  intro oracle p cs posted t ts m id h1 h2 h3
  simp [post_thread_go, h1, h2, h3]

/-- Witness for C4 at the concrete repair scenario: segment `"s2"`, whose
reply to post 1 is rejected with a deleted-parent error, is retried as a
top-level post with id 2 while post 1 stays in the log. -/
theorem c4_chain_repair_witness :
    post_thread_go repairOracle ["s2"] ⟨some 1, 1, [⟨"s1", none, 1⟩]⟩ =
      post_thread_go repairOracle [] ⟨some 2, 3, [⟨"s1", none, 1⟩, ⟨"s2", none, 2⟩]⟩ :=
  c4_chain_repair.1 repairOracle 1 1 [⟨"s1", none, 1⟩] "s2" []
    "Tweet deleted or not visible" 2 rfl (by decide) rfl

/-! ## Claim C8 — session manager idempotence and verification -/

/-- C8: a login call while already authenticated attempts no credential
exchange and reports success; the authenticated state is reached exactly when
either it already held or credentials, login and the verification read all
succeed; and the reported boolean always equals the resulting state. -/
theorem c8_login_idempotent (logged_in creds_ok login_ok verify_ok : Bool) :
    (logged_in = true →
      twitter_login logged_in creds_ok login_ok verify_ok = ⟨true, true, false⟩)
    ∧ ((twitter_login logged_in creds_ok login_ok verify_ok).logged_in = true ↔
        (logged_in = true ∨ (creds_ok = true ∧ login_ok = true ∧ verify_ok = true)))
    ∧ (twitter_login logged_in creds_ok login_ok verify_ok).returned =
        (twitter_login logged_in creds_ok login_ok verify_ok).logged_in := by
  revert logged_in creds_ok login_ok verify_ok
  decide

/-- Witness for C8: an already-authenticated call is a successful no-op, and
the full success path authenticates. -/
theorem c8_login_idempotent_witness :
    twitter_login true false false false = ⟨true, true, false⟩
    ∧ (twitter_login false true true true).logged_in = true :=
  ⟨(c8_login_idempotent true false false false).1 rfl,
   ((c8_login_idempotent false true true true).2.1).mpr (Or.inr ⟨rfl, rfl, rfl⟩)⟩

/-! ## Claims C2 and C9 — dedup ledger and mark-as-read in the monitor loop -/

/-- Ledger membership is preserved by one monitor step. -/
theorem monitorStep_mem (wm : Int) (ledger : List String) (ev : MsgEvent) (x : String)
    (hx : x ∈ ledger) : x ∈ (monitorStep wm ledger ev).1 := by
  obtain ⟨i, dh, f⟩ := ev
  by_cases hmem : i ∈ ledger
  · simpa [monitorStep, hmem] using hx
  · cases dh with
    | none => simpa [monitorStep, hmem] using hx
    | some d =>
      by_cases hnew : is_new_email wm d
      · cases f with
        | true =>
          simp only [monitorStep, hmem, hnew]
          simp [List.mem_append, hx]
        | false => simpa [monitorStep, hmem, hnew] using hx
      · simpa [monitorStep, hmem, hnew] using hx

/-- A message whose id is already in the ledger is skipped with no effects. -/
theorem monitorStep_skip (wm : Int) (ledger : List String) (ev : MsgEvent)
    (hx : ev.id ∈ ledger) : monitorStep wm ledger ev = (ledger, ⟨false, false, false⟩) := by
  simp [monitorStep, hx]

/-- A step that ran the side-effecting pipeline recorded its id. -/
theorem monitorStep_classified_mem (wm : Int) (ledger : List String) (ev : MsgEvent)
    (h : (monitorStep wm ledger ev).2.classified = true) :
    ev.id ∈ (monitorStep wm ledger ev).1 := by
  obtain ⟨i, dh, f⟩ := ev
  by_cases hmem : i ∈ ledger
  · simp [monitorStep, hmem] at h
  · cases dh with
    | none => simp [monitorStep, hmem] at h
    | some d =>
      by_cases hnew : is_new_email wm d
      · cases f with
        | true => simp [monitorStep, hmem, hnew, List.mem_append]
        | false => simp [monitorStep, hmem, hnew] at h
      · simp [monitorStep, hmem, hnew] at h

/-- Once an id is in the ledger, every later trace entry for it reports the
dedup check as "seen" and runs no side-effecting processing. -/
theorem runMonitor_all_skip (wm : Int) (evs : List MsgEvent) :
    ∀ (ledger : List String) (x : String), x ∈ ledger →
      List.all (runMonitor wm ledger evs).2
        (fun pr => !(decide (pr.1 = x)) || (!pr.2.dedupUnseen && !pr.2.classified)) = true := by
  induction evs with
  | nil => intro ledger x hx; rfl
  | cons ev evs ih =>
    intro ledger x hx
    simp only [runMonitor, List.all_cons, Bool.and_eq_true]
    refine ⟨?_, ih _ x (monitorStep_mem wm ledger ev x hx)⟩
    by_cases hid : ev.id = x
    · rw [monitorStep_skip wm ledger ev (hid.symm ▸ hx)]
      simp
    · simp [hid]

/-- Once an id is in the ledger, no later step classifies it. -/
theorem runMonitor_count_zero (wm : Int) (evs : List MsgEvent) (ledger : List String)
    (x : String) (hx : x ∈ ledger) :
    List.countP (fun pr => decide (pr.1 = x) && pr.2.classified)
      (runMonitor wm ledger evs).2 = 0 := by
  rw [List.countP_eq_zero]
  intro pr hpr
  have hall := runMonitor_all_skip wm evs ledger x hx
  rw [List.all_eq_true] at hall
  have hpred := hall pr hpr
  rcases Bool.or_eq_true .. |>.mp hpred with h | h
  · simp only [Bool.not_eq_true', decide_eq_false_iff_not] at h
    simp [h]
  · simp only [Bool.and_eq_true, Bool.not_eq_true'] at h
    simp [h.2]

/-- C2 counterexample: the same unrecorded id queried in two successive poll
cycles is answered "unseen" both times (its first encounter was not new, so
the id was never appended), refuting "`false` on every later query". -/
theorem c2_dedup_counterexample :
    (runMonitor 0 [] [eventX, eventX]).2 =
      [("X", ⟨true, true, false⟩), ("X", ⟨true, true, false⟩)] := by
  decide

/-- C2 amended: the membership check answers "seen" only after the id has
been recorded, which happens exactly when a new, successfully fetched item
completes the processing pass; before that the check may answer "unseen"
repeatedly, but no id is ever passed to the side-effecting steps more than
once per run, and a recorded id is never processed again. -/
theorem c2_dedup_amended (wm : Int) (ledger : List String) (evs : List MsgEvent) (x : String) :
    List.countP (fun pr => decide (pr.1 = x) && pr.2.classified)
      (runMonitor wm ledger evs).2 ≤ 1
    ∧ (x ∈ ledger →
        List.all (runMonitor wm ledger evs).2
          (fun pr => !(decide (pr.1 = x)) || (!pr.2.dedupUnseen && !pr.2.classified)) = true) := by
  refine ⟨?_, fun hx => runMonitor_all_skip wm evs ledger x hx⟩
  induction evs generalizing ledger with
  | nil => simp [runMonitor]
  | cons ev evs ih =>
    simp only [runMonitor, List.countP_cons]
    by_cases hf : (decide (ev.id = x) && (monitorStep wm ledger ev).2.classified) = true
    · obtain ⟨h1, h2⟩ := Bool.and_eq_true .. |>.mp hf
      rw [decide_eq_true_eq] at h1
      have hx2 : x ∈ (monitorStep wm ledger ev).1 :=
        h1 ▸ monitorStep_classified_mem wm ledger ev h2
      have h0 := runMonitor_count_zero wm evs (monitorStep wm ledger ev).1 x hx2
      simp [hf, h0]
    · simp only [hf, if_false]
      simpa using ih (monitorStep wm ledger ev).1

/-- Witness for the amended C2: starting with `"X"` already recorded, its
trace shows at most one classification and only "seen" answers. -/
theorem c2_dedup_amended_witness :
    List.countP (fun pr => decide (pr.1 = "X") && pr.2.classified)
      (runMonitor 0 ["X"] [eventX]).2 ≤ 1
    ∧ List.all (runMonitor 0 ["X"] [eventX]).2
        (fun pr => !(decide (pr.1 = "X")) || (!pr.2.dedupUnseen && !pr.2.classified)) = true :=
  ⟨(c2_dedup_amended 0 ["X"] [eventX] "X").1,
   (c2_dedup_amended 0 ["X"] [eventX] "X").2 (by decide)⟩

/-- C9: the mark-as-read mutation is issued for a listed message iff the
message passed the dedup check and was determined not new (missing date
header or a failed watermark test), and a message that entered the
side-effecting pipeline is never marked read. -/
theorem c9_mark_read_iff_not_new (wm : Int) (ledger : List String) (ev : MsgEvent) :
    ((monitorStep wm ledger ev).2.markedRead = true ↔
      (ev.id ∉ ledger ∧ (ev.dateHeader = none
        ∨ ∃ d, ev.dateHeader = some d ∧ is_new_email wm d = false)))
    ∧ ((monitorStep wm ledger ev).2.classified = true →
        (monitorStep wm ledger ev).2.markedRead = false) := by
  obtain ⟨i, dh, f⟩ := ev
  by_cases hmem : i ∈ ledger
  · simp [monitorStep, hmem]
  · cases dh with
    | none => simp [monitorStep, hmem]
    | some d =>
      by_cases hnew : is_new_email wm d
      · cases f with
        | true => simp [monitorStep, hmem, hnew]
        | false => simp [monitorStep, hmem, hnew]
      · simp [monitorStep, hmem, hnew]

/-- Witness for C9: a new, fetched message is processed and not marked read,
while a message with no date header is marked read. -/
theorem c9_mark_read_iff_not_new_witness :
    (monitorStep 0 [] ⟨"Y", some (some (1, 0)), true⟩).2.markedRead = false
    ∧ (monitorStep 0 [] ⟨"Z", none, false⟩).2.markedRead = true :=
  ⟨(c9_mark_read_iff_not_new 0 [] ⟨"Y", some (some (1, 0)), true⟩).2 (by decide),
   (c9_mark_read_iff_not_new 0 [] ⟨"Z", none, false⟩).1.mpr
     ⟨by simp, Or.inl rfl⟩⟩

/-! ## Claim C10 — mention reply length bound -/

/-- C10: the mention-reply generator always returns at most 240 characters; a
cleaned reply longer than 240 characters is truncated to its first 237
characters plus an ellipsis, and the internal-error path returns the empty
string. -/
theorem c10_reply_length_bound (r : Option String) :
    (analyze_and_respond_to_tweet r).length ≤ 240
    ∧ (∀ t : String, r = some t → 240 < (clean (pyStrip t)).length →
        analyze_and_respond_to_tweet r =
          String.mk ((clean (pyStrip t)).toList.take 237 ++ "...".toList))
    ∧ analyze_and_respond_to_tweet none = "" := by
  refine ⟨?_, ?_, rfl⟩
  · cases r with
    | none => simp [analyze_and_respond_to_tweet]
    | some t =>
      by_cases h : 240 < (clean (pyStrip t)).length
      · have hlen : (analyze_and_respond_to_tweet (some t)).length
            = ((clean (pyStrip t)).toList.take 237).length + ("...".toList).length := by
          simp only [analyze_and_respond_to_tweet, if_pos h]
          exact List.length_append _ _
        have htake := List.length_take 237 (clean (pyStrip t)).toList
        have h3 : ("...".toList).length = 3 := rfl
        omega
      · simp only [analyze_and_respond_to_tweet, if_neg h]
        omega
  · intro t ht h
    subst ht
    simp [analyze_and_respond_to_tweet, if_pos h]

set_option maxRecDepth 4000 in
/-- Witness for C10 on a 300-character reply: the output is the 237-character
prefix plus ellipsis, and it satisfies the length bound. -/
theorem c10_reply_length_bound_witness :
    analyze_and_respond_to_tweet (some longB) =
      String.mk ((clean (pyStrip longB)).toList.take 237 ++ "...".toList)
    ∧ (analyze_and_respond_to_tweet (some longB)).length ≤ 240 :=
  ⟨(c10_reply_length_bound (some longB)).2.1 longB rfl (by decide),
   (c10_reply_length_bound (some longB)).1⟩

end Alma
